import Mathlib

/-
Verification development for the sp500-volatility-tracker repository.

This file gives a shallow embedding, over the real numbers, of the
volatility-modeling core of the repository:
  * `models/volatilityModels.js` (the `VolatilityModels` class), and
  * `services/volatilityAnalysisService.js` (the `analyzeVolatility`
    pipeline, its rolling-volatility helper and trend classifier),
together with the pieces of the `simple-statistics` and `mathjs`
libraries that those files use (`mean`, `standardDeviation`, `quantile`,
matrix transpose / multiply / inverse).

Conventions of the embedding:
  * JS numbers are modelled as real numbers (ℝ); `Math.log`, `Math.sqrt`,
    `Math.exp` become `Real.log`, `Real.sqrt`, `Real.exp`.
  * a JS function that can return `null` is modelled with `Option ℝ`
    (`none` = `null`); JS arithmetic coerces `null` to `0`, which is
    modelled by `jsNum`.
  * a JS function that can `throw` is modelled with `Except JsError _`;
    exceptions propagate through the pipeline exactly as in the source.
  * `arr[i]` reads inside loops whose bounds keep `i` in range are
    modelled with `List.getD` (default `0`), which agrees with the
    source on every reachable index.
-/

namespace SPVT

/-- A daily OHLCV price bar, as handed to `analyzeVolatility` by the
market-data service.  The field `openPrice` is the JS field `open`. -/
structure PriceBar where
  openPrice : ℝ
  high : ℝ
  low : ℝ
  close : ℝ
  volume : ℝ

instance : Inhabited PriceBar := ⟨⟨0, 0, 0, 0, 0⟩⟩

/-- The runtime errors that the embedded code can raise.
`insufficientData` is the `throw new Error('Insufficient data...')` in
`analyzeVolatility`; `emptyVectorProduct` is mathjs's
"Cannot multiply two empty vectors"; `singularMatrix` is mathjs's
"Cannot calculate inverse, determinant is zero"; `emptyQuantile` is
simple-statistics' "quantile requires at least one data point.";
`domainError` exists only for spec-modelled definitions (the source
never raises it). -/
inductive JsError where
  | insufficientData
  | emptyVectorProduct
  | singularMatrix
  | emptyQuantile
  | domainError
  deriving DecidableEq, Repr

/-- JS numeric coercion of a possibly-`null` value: `null` becomes `0`
in arithmetic and comparisons (`null < x`, `null - x`, `Math.pow(null, 2)`). -/
def jsNum (x : Option ℝ) : ℝ := x.getD 0

/-- `ss.mean`: sum divided by length (simple-statistics `mean`). -/
noncomputable def ssMean (xs : List ℝ) : ℝ := xs.sum / xs.length

/-- simple-statistics `variance`: population variance, mean of squared
deviations from the mean. -/
noncomputable def ssVariance (xs : List ℝ) : ℝ :=
  ssMean (xs.map (fun x => (x - ssMean xs) ^ 2))

/-- simple-statistics `standardDeviation`: square root of the population
variance (for a one-element sample the variance is `0`, matching the
library's special case). -/
noncomputable def ssStandardDeviation (xs : List ℝ) : ℝ :=
  Real.sqrt (ssVariance xs)

/-- simple-statistics `quantileSorted` on an already sorted list:
`idx = length · p`; `p = 1` takes the last element, `p = 0` the first;
a fractional `idx` takes element `⌈idx⌉ - 1`; an integral `idx` with an
even-length list averages elements `idx - 1` and `idx`, with an
odd-length list takes element `idx`.  (The library throws on an empty
list; that check is hoisted into `ssQuantile`.) -/
noncomputable def quantileSorted (x : List ℝ) (p : ℝ) : ℝ :=
  let idx : ℝ := (x.length : ℝ) * p
  if p = 1 then x.getD (x.length - 1) 0
  else if p = 0 then x.getD 0 0
  else if idx ≠ (⌊idx⌋₊ : ℝ) then x.getD (⌈idx⌉₊ - 1) 0
  else if x.length % 2 = 0 then (x.getD (⌊idx⌋₊ - 1) 0 + x.getD ⌊idx⌋₊ 0) / 2
  else x.getD ⌊idx⌋₊ 0

/-- simple-statistics `quantile`: sort a copy of the data, then apply
`quantileSorted`; throws on an empty list.  JS `Array.sort` with a
numeric comparator is modelled by `insertionSort (· ≤ ·)`: on ℝ the
order is total and antisymmetric, so every sorted permutation of the
input is the same list. -/
noncomputable def ssQuantile (x : List ℝ) (p : ℝ) : Except JsError ℝ :=
  if x.isEmpty then .error .emptyQuantile
  else .ok (quantileSorted (x.insertionSort (· ≤ ·)) p)

/-! ### `VolatilityModels` (models/volatilityModels.js) -/

/-- `VolatilityModels.calculateReturns`: per-period returns from
consecutive prices; `type = "log"` gives `ln(p[i]/p[i-1])`, anything
else gives `(p[i] - p[i-1]) / p[i-1]`.  For fewer than two prices the
loop body never runs and the result is the empty list (no error). -/
noncomputable def calculateReturns (prices : List ℝ) (type : String) : List ℝ :=
  (List.range' 1 (prices.length - 1)).map (fun i =>
    if type = "log" then Real.log (prices.getD i 0 / prices.getD (i - 1) 0)
    else (prices.getD i 0 - prices.getD (i - 1) 0) / prices.getD (i - 1) 0)

/-- `VolatilityModels.calculateRealizedVolatility`: `null` for fewer than
two returns, else the square root of the mean squared deviation times
`√annualizationFactor`.  The source's default `annualizationFactor` is
`252`; callers here pass it explicitly. -/
noncomputable def calculateRealizedVolatility
    (returns : List ℝ) (annualizationFactor : ℝ) : Option ℝ :=
  if returns.length < 2 then none
  else
    let mean := ssMean returns
    let squaredDeviations := returns.map (fun r => (r - mean) ^ 2)
    let variance := ssMean squaredDeviations
    let dailyVol := Real.sqrt variance
    some (dailyVol * Real.sqrt annualizationFactor)

/-- The parameter record returned by `fitHARModel`. -/
structure HARParams where
  intercept : ℝ
  dailyCoef : ℝ
  weeklyCoef : ℝ
  monthlyCoef : ℝ
  rSquared : ℝ
  mse : ℝ

/-- The HAR feature rows built by `fitHARModel`: for each index
`i = 22 .. length-1` the row `[1, vol[i-1], mean(vol[i-5..i-1]),
mean(vol[i-22..i-1])]` (JS `slice(i-5, i)` and `slice(i-22, i)`). -/
noncomputable def harRows (volatilities : List ℝ) : List (Fin 4 → ℝ) :=
  (List.range' 22 (volatilities.length - 22)).map (fun i =>
    ![1, volatilities.getD (i - 1) 0,
      ssMean ((volatilities.drop (i - 5)).take 5),
      ssMean ((volatilities.drop (i - 22)).take 22)])

/-- The HAR regression targets: `vol[i]` for `i = 22 .. length-1`. -/
noncomputable def harTargets (volatilities : List ℝ) : List ℝ :=
  (List.range' 22 (volatilities.length - 22)).map (fun i => volatilities.getD i 0)

/-- `VolatilityModels.ordinaryLeastSquares`, specialised to the
four-column feature rows that `fitHARModel` builds (its only caller).
`β = (XᵀX)⁻¹ Xᵀ y`, computed by mathjs.  With an empty feature list
mathjs's `multiply` throws ("Cannot multiply two empty vectors"); with a
singular normal matrix mathjs's `inv` throws ("Cannot calculate inverse,
determinant is zero") — in exact real arithmetic its Gauss-Jordan
elimination fails exactly when `det (XᵀX) = 0`, and otherwise returns
the true inverse. -/
noncomputable def ordinaryLeastSquares
    (features : List (Fin 4 → ℝ)) (targets : List ℝ) :
    Except JsError (Fin 4 → ℝ) :=
  if features.length = 0 then .error .emptyVectorProduct
  else
    let X : Matrix (Fin features.length) (Fin 4) ℝ :=
      Matrix.of fun i j => features.get i j
    let y : Fin features.length → ℝ := fun i => targets.getD i 0
    let XtX : Matrix (Fin 4) (Fin 4) ℝ := X.transpose * X
    if XtX.det = 0 then .error .singularMatrix
    else .ok (XtX⁻¹.mulVec (X.transpose.mulVec y))

/-- `VolatilityModels.calculateRSquared`:
`1 - residualSS / totalSS` around the mean of `actual`. -/
noncomputable def calculateRSquared (actual predicted : List ℝ) : ℝ :=
  let meanActual := ssMean actual
  let totalSS := (actual.map (fun v => (v - meanActual) ^ 2)).sum
  let residualSS := ((actual.zip predicted).map (fun q => (q.1 - q.2) ^ 2)).sum
  1 - residualSS / totalSS

/-- `VolatilityModels.fitHARModel`: `null` for fewer than 22 points,
otherwise OLS over the HAR rows (any mathjs exception propagates),
packaging coefficients, R² and MSE. -/
noncomputable def fitHARModel (volatilities : List ℝ) :
    Except JsError (Option HARParams) :=
  if volatilities.length < 22 then .ok none
  else
    let features := harRows volatilities
    let targets := harTargets volatilities
    match ordinaryLeastSquares features targets with
    | .error e => .error e
    | .ok coefficients =>
      let predictions := features.map (fun f => ∑ j : Fin 4, f j * coefficients j)
      let rSquared := calculateRSquared targets predictions
      let mse := ssMean ((predictions.zip targets).map (fun q => (q.1 - q.2) ^ 2))
      .ok (some ⟨coefficients 0, coefficients 1, coefficients 2, coefficients 3,
                 rSquared, mse⟩)

/-- `VolatilityModels.forecastHAR`: `null` when the model is `null` or
fewer than 22 recent points are supplied; otherwise
`intercept + dailyCoef·RV[last] + weeklyCoef·mean(last 5) +
monthlyCoef·mean(last 22)` (JS `slice(-5)` / `slice(-22)`). -/
noncomputable def forecastHAR (model : Option HARParams)
    (recentVolatilities : List ℝ) : Option ℝ :=
  match model with
  | none => none
  | some m =>
    if recentVolatilities.length < 22 then none
    else
      let dailyRV := recentVolatilities.getD (recentVolatilities.length - 1) 0
      let weeklyRV := ssMean (recentVolatilities.drop (recentVolatilities.length - 5))
      let monthlyRV := ssMean (recentVolatilities.drop (recentVolatilities.length - 22))
      some (m.intercept + m.dailyCoef * dailyRV + m.weeklyCoef * weeklyRV +
            m.monthlyCoef * monthlyRV)

/-- `VolatilityModels.forecastGARCH`: `null` for fewer than 30 returns,
else `sqrt(ω + α·lastReturn² + β·currentVolatility²)` with the fixed
parameters `ω = 0.000001`, `α = 0.08`, `β = 0.90`. -/
noncomputable def forecastGARCH (returns : List ℝ) (currentVolatility : ℝ) :
    Option ℝ :=
  if returns.length < 30 then none
  else
    let omega : ℝ := 0.000001
    let alpha : ℝ := 0.08
    let beta : ℝ := 0.90
    let lastReturn := returns.getD (returns.length - 1) 0
    let shock := lastReturn ^ 2
    some (Real.sqrt (omega + alpha * shock + beta * currentVolatility ^ 2))

/-- `VolatilityModels.calculateParkinsonVolatility`: `null` when the
high/low lists differ in length or have fewer than two elements, else
`sqrt(mean((ln(high/low))²) / (4 ln 2)) · √n`. -/
noncomputable def calculateParkinsonVolatility
    (highPrices lowPrices : List ℝ) (n : ℝ) : Option ℝ :=
  if highPrices.length ≠ lowPrices.length ∨ highPrices.length < 2 then none
  else
    let logRanges := (highPrices.zip lowPrices).map (fun q => Real.log (q.1 / q.2))
    let meanSquaredRange := ssMean (logRanges.map (fun r => r * r))
    some (Real.sqrt (meanSquaredRange / (4 * Real.log 2)) * Real.sqrt n)

/-- `VolatilityModels.calculateGarmanKlassVolatility`: `null` for fewer
than two bars; otherwise, for each bar `i = 1 .. N-1`, the code pushes
`Math.sqrt(0.5·u² - (2 ln 2 - 1)·c²)` with `u = ln(high[i]/low[i])`,
`c = ln(close[i]/open[i])`, and returns the MEAN OF THOSE SQUARE ROOTS
times `√n` (the square root is taken per bar, before averaging; a
negative per-bar term yields `Math.sqrt` of a negative number — NaN in
JS, `0` under `Real.sqrt` — with no error raised). -/
noncomputable def calculateGarmanKlassVolatility
    (openPrices high low close : List ℝ) (n : ℝ) : Option ℝ :=
  if openPrices.length < 2 then none
  else
    let volatilities := (List.range' 1 (openPrices.length - 1)).map (fun i =>
      let u := Real.log (high.getD i 0 / low.getD i 0)
      let c := Real.log (close.getD i 0 / openPrices.getD i 0)
      Real.sqrt (0.5 * u * u - (2 * Real.log 2 - 1) * c * c))
    some (ssMean volatilities * Real.sqrt n)

/-- `VolatilityModels.calculateBollingerBandWidth`: `null` for fewer than
`period` prices, else `((sma + k·σ) - (sma - k·σ)) / sma` over the last
`period` prices (JS `slice(-period)`). -/
noncomputable def calculateBollingerBandWidth
    (prices : List ℝ) (period : ℕ) (numStd : ℝ) : Option ℝ :=
  if prices.length < period then none
  else
    let window := prices.drop (prices.length - period)
    let sma := ssMean window
    let std := ssStandardDeviation window
    let upperBand := sma + numStd * std
    let lowerBand := sma - numStd * std
    some ((upperBand - lowerBand) / sma)

/-- `VolatilityModels.calculateEMA`: `null` on an empty list, else a fold
`ema ← (v - ema) · (2/(period+1)) + ema` seeded with the first value. -/
noncomputable def calculateEMA (values : List ℝ) (period : ℝ) : Option ℝ :=
  match values with
  | [] => none
  | v :: rest =>
    let multiplier := 2 / (period + 1)
    some (rest.foldl (fun ema x => (x - ema) * multiplier + ema) v)

/-- `VolatilityModels.calculateATR`: `null` for fewer than `period + 1`
bars, else the EMA (period `period`) of the true ranges
`max(high-low, |high-prevClose|, |low-prevClose|)` over bars `1..N-1`. -/
noncomputable def calculateATR
    (high low close : List ℝ) (period : ℕ) : Option ℝ :=
  if high.length < period + 1 then none
  else
    let trueRanges := (List.range' 1 (high.length - 1)).map (fun i =>
      max (high.getD i 0 - low.getD i 0)
        (max |high.getD i 0 - close.getD (i - 1) 0|
             |low.getD i 0 - close.getD (i - 1) 0|))
    calculateEMA trueRanges (period : ℝ)

/-- `VolatilityModels.identifyVolatilityRegime`: bucket `currentVol`
against the 25th/75th/90th `ss.quantile` of the historical values
(each quantile call throws on an empty reference set). -/
noncomputable def identifyVolatilityRegime
    (currentVol : ℝ) (historicalVols : List ℝ) : Except JsError String :=
  match ssQuantile historicalVols 0.25, ssQuantile historicalVols 0.75,
        ssQuantile historicalVols 0.90 with
  | .ok percentile25, .ok percentile75, .ok percentile90 =>
    .ok (if currentVol < percentile25 then "low"
         else if currentVol < percentile75 then "normal"
         else if currentVol < percentile90 then "elevated"
         else "extreme")
  | .error e, _, _ => .error e
  | _, .error e, _ => .error e
  | _, _, .error e => .error e

/-- A trading signal as pushed by `generateVolatilitySignals`. -/
structure Signal where
  type : String
  action : String
  strength : ℝ
  reason : String

/-- The `volatilityData` argument of `generateVolatilitySignals`, as
assembled by `analyzeVolatility` (the forecast and width fields can be
JS `null`). -/
structure VolatilityData where
  regime : String
  har_forecast : Option ℝ
  realized_volatility : Option ℝ
  bollinger_width : Option ℝ
  historical_avg_width : ℝ

/-- The `priceData` argument of `generateVolatilitySignals`. -/
structure PriceDataIn where
  trend : String
  current_price : ℝ

open Classical in
/-- `VolatilityModels.generateVolatilitySignals`: evaluates the four
rules in source order, pushing the matching signals; `null` forecast /
width values take part in the comparisons as `0` (JS coercion). -/
noncomputable def generateVolatilitySignals
    (volatilityData : VolatilityData) (priceData : PriceDataIn) : List Signal :=
  let signals : List Signal := []
  let signals := if volatilityData.regime = "extreme" ∧
      jsNum volatilityData.har_forecast < jsNum volatilityData.realized_volatility then
    signals ++ [⟨"volatility_mean_reversion", "prepare_to_buy", 0.8,
                 "Extreme volatility likely to revert"⟩] else signals
  let signals := if volatilityData.regime = "low" ∧ priceData.trend = "up" then
    signals ++ [⟨"low_vol_trend", "buy", 0.7,
                 "Uptrend in low volatility environment"⟩] else signals
  let signals := if jsNum volatilityData.bollinger_width >
      volatilityData.historical_avg_width * 1.5 then
    signals ++ [⟨"volatility_breakout", "wait", 0.6,
                 "Potential volatility expansion"⟩] else signals
  let harDivergence :=
    |jsNum volatilityData.har_forecast - jsNum volatilityData.realized_volatility|
  let signals := if harDivergence > jsNum volatilityData.realized_volatility * 0.2 then
    signals ++ [⟨"har_divergence", "hedge", 0.65,
                 "HAR model shows significant divergence"⟩] else signals
  signals

/-! ### `VolatilityAnalysisService` (services/volatilityAnalysisService.js)

The persistence calls (`saveVolatilityIndicators`, `saveHARModel`,
`saveTradingSignals`) and the market-data fetch are external
collaborators; `analyzeVolatility` is embedded as the pure computation
from the fetched bar list to the returned analysis record, with its
`throw` / rethrow paths modelled by `Except`. -/

/-- `calculateRollingVolatilities`: realized volatility (annualization
factor `1`) over each trailing window of `window` returns, slid one step
at a time.  The pipeline only calls this with `window = 20`, so every
window has length `20 ≥ 2` and the inner call never yields `null`;
`jsNum` records the pushed number. -/
noncomputable def calculateRollingVolatilities
    (returns : List ℝ) (window : ℕ) : List ℝ :=
  (List.range' (window - 1) (returns.length - (window - 1))).map (fun i =>
    let windowReturns := (returns.drop (i + 1 - window)).take window
    jsNum (calculateRealizedVolatility windowReturns 1))

/-- Lines 44-57 of `analyzeVolatility`: the HAR daily forecast and its
√5- / √22-scaled weekly and monthly companions, all `null` unless a
model was fitted and at least 22 rolling points exist. -/
noncomputable def computeHARForecasts
    (harModel : Option HARParams) (rollingVols : List ℝ) :
    Option ℝ × Option ℝ × Option ℝ :=
  if harModel.isSome ∧ 22 ≤ rollingVols.length then
    let harForecastDaily := forecastHAR harModel rollingVols
    (harForecastDaily,
     some (jsNum harForecastDaily * Real.sqrt 5),
     some (jsNum harForecastDaily * Real.sqrt 22))
  else (none, none, none)

/-- `calculateTrend`: `"unknown"` below 20 prices, else compare the last
price with the 20- and 50-period simple moving averages. -/
noncomputable def calculateTrend (prices : List ℝ) : String :=
  if prices.length < 20 then "unknown"
  else
    let sma20 := (prices.drop (prices.length - 20)).sum / 20
    let sma50 := if 50 ≤ prices.length
      then (prices.drop (prices.length - 50)).sum / 50 else sma20
    let currentPrice := prices.getD (prices.length - 1) 0
    if sma20 < currentPrice ∧ sma50 < sma20 then "up"
    else if currentPrice < sma20 ∧ sma20 < sma50 then "down"
    else "sideways"

/-- The `volatility_indicators` object of the analysis result. -/
structure VolatilityIndicators where
  realized_volatility : Option ℝ
  har_forecast_daily : Option ℝ
  har_forecast_weekly : Option ℝ
  har_forecast_monthly : Option ℝ
  garch_forecast : Option ℝ
  atr_14 : Option ℝ
  bollinger_band_width : Option ℝ
  parkinson_volatility : Option ℝ
  garman_klass_volatility : Option ℝ

/-- The `market_summary` object of the analysis result. -/
structure MarketSummary where
  last_close : ℝ
  change_1d : ℝ
  change_5d : Option ℝ
  volume : ℝ

/-- The record returned by `analyzeVolatility` (symbol and timestamp,
which are pass-through metadata, are omitted). -/
structure Analysis where
  volatility_indicators : VolatilityIndicators
  har_model : Option HARParams
  volatility_regime : String
  trend : String
  signals : List Signal
  market_summary : MarketSummary

/-- `VolatilityAnalysisService.analyzeVolatility`, as the pure function
from the fetched market data to the analysis record: throws
(`insufficientData`) below 30 bars, computes every estimator, fits and
forecasts HAR, GARCH, regime, trend and signals, and returns the
assembled record; any exception raised on the way (from mathjs inside
the HAR fit, or from the quantile calls) propagates to the caller. -/
noncomputable def analyzeVolatility (marketData : List PriceBar) :
    Except JsError Analysis :=
  if marketData.length < 30 then .error .insufficientData
  else
    let closes := marketData.map PriceBar.close
    let highs := marketData.map PriceBar.high
    let lows := marketData.map PriceBar.low
    let opens := marketData.map PriceBar.openPrice
    let returns := calculateReturns closes "log"
    let realizedVol := calculateRealizedVolatility returns 252
    let parkinsonVol := calculateParkinsonVolatility highs lows 252
    let garmanKlassVol := calculateGarmanKlassVolatility opens highs lows closes 252
    let atr := calculateATR highs lows closes 14
    let bollingerWidth := calculateBollingerBandWidth closes 20 2
    let rollingVols := calculateRollingVolatilities returns 20
    match fitHARModel rollingVols with
    | .error e => .error e
    | .ok harModel =>
      let forecasts := computeHARForecasts harModel rollingVols
      let garchForecast := forecastGARCH returns (jsNum realizedVol)
      match identifyVolatilityRegime (jsNum realizedVol) rollingVols with
      | .error e => .error e
      | .ok regime =>
        let trend := calculateTrend closes
        let volatilityData : VolatilityData :=
          ⟨regime, forecasts.1, realizedVol, bollingerWidth, 0.1⟩
        let priceData : PriceDataIn :=
          ⟨trend, closes.getD (closes.length - 1) 0⟩
        let signals := generateVolatilitySignals volatilityData priceData
        .ok
          { volatility_indicators :=
              ⟨realizedVol, forecasts.1, forecasts.2.1, forecasts.2.2,
               garchForecast, atr, bollingerWidth, parkinsonVol, garmanKlassVol⟩
            har_model := harModel
            volatility_regime := regime
            trend := trend
            signals := signals
            market_summary :=
              ⟨closes.getD (closes.length - 1) 0,
               (closes.getD (closes.length - 1) 0 - closes.getD (closes.length - 2) 0) /
                 closes.getD (closes.length - 2) 0 * 100,
               if 5 ≤ closes.length then
                 some ((closes.getD (closes.length - 1) 0 - closes.getD (closes.length - 6) 0) /
                   closes.getD (closes.length - 6) 0 * 100)
               else none,
               (marketData.getD (marketData.length - 1) default).volume⟩ }

/-! ### Spec-side definitions

Definitions in this section are written from the specification's words,
for comparison against the source-translated definitions above. -/

/-- Modelled from the spec (§4.2 Garman–Klass), NOT from the source:
per-bar term `0.5·u² − (2 ln 2 − 1)·c²` with `u = ln(high/low)`,
`c = ln(close/open)` over bars `1..N-1`; the result is
`sqrt(mean(term)) · √n`, and a negative mean term is a `DomainError`
rather than being silently coerced. -/
noncomputable def garmanKlassSpecEstimator
    (openPrices high low close : List ℝ) (n : ℝ) : Except JsError ℝ :=
  if openPrices.length < 2 then .error .insufficientData
  else
    let terms := (List.range' 1 (openPrices.length - 1)).map (fun i =>
      let u := Real.log (high.getD i 0 / low.getD i 0)
      let c := Real.log (close.getD i 0 / openPrices.getD i 0)
      0.5 * u * u - (2 * Real.log 2 - 1) * c * c)
    let m := ssMean terms
    if m < 0 then .error .domainError
    else .ok (Real.sqrt m * Real.sqrt n)

open Classical in
/-- Spec rule 1 (mean reversion), as an independent rule producing zero
or one signal; `null` inputs take part in the comparison as `0`. -/
noncomputable def meanReversionRule (vd : VolatilityData) : List Signal :=
  if vd.regime = "extreme" ∧ jsNum vd.har_forecast < jsNum vd.realized_volatility then
    [⟨"volatility_mean_reversion", "prepare_to_buy", 0.8,
      "Extreme volatility likely to revert"⟩]
  else []

open Classical in
/-- Spec rule 2 (low-volatility trend following). -/
noncomputable def lowVolTrendRule (vd : VolatilityData) (pd : PriceDataIn) :
    List Signal :=
  if vd.regime = "low" ∧ pd.trend = "up" then
    [⟨"low_vol_trend", "buy", 0.7, "Uptrend in low volatility environment"⟩]
  else []

open Classical in
/-- Spec rule 3 (volatility breakout). -/
noncomputable def breakoutRule (vd : VolatilityData) : List Signal :=
  if jsNum vd.bollinger_width > vd.historical_avg_width * 1.5 then
    [⟨"volatility_breakout", "wait", 0.6, "Potential volatility expansion"⟩]
  else []

open Classical in
/-- Spec rule 4 (HAR divergence). -/
noncomputable def harDivergenceRule (vd : VolatilityData) : List Signal :=
  if |jsNum vd.har_forecast - jsNum vd.realized_volatility| >
      jsNum vd.realized_volatility * 0.2 then
    [⟨"har_divergence", "hedge", 0.65, "HAR model shows significant divergence"⟩]
  else []

/-- The reference set `{1, 2, ..., 100}` of the spec's regime-classifier
examples. -/
noncomputable def oneToHundred : List ℝ :=
  (List.range 100).map (fun (k : ℕ) => (k : ℝ) + 1)

/-! ### Helper lemmas -/

theorem calculateReturns_length (prices : List ℝ) (type : String) :
    (calculateReturns prices type).length = prices.length - 1 := by
  simp [calculateReturns]

theorem calculateRollingVolatilities_length (returns : List ℝ) (window : ℕ) :
    (calculateRollingVolatilities returns window).length =
      returns.length - (window - 1) := by
  simp [calculateRollingVolatilities]

theorem calculateEMA_isSome (values : List ℝ) (period : ℝ) (h : values ≠ []) :
    (calculateEMA values period).isSome := by
  cases values with
  | nil => exact absurd rfl h
  | cons v rest => rfl

theorem identifyVolatilityRegime_ok (v : ℝ) (hist : List ℝ) (h : hist ≠ []) :
    identifyVolatilityRegime v hist =
      .ok (if v < quantileSorted (hist.insertionSort (· ≤ ·)) 0.25 then "low"
           else if v < quantileSorted (hist.insertionSort (· ≤ ·)) 0.75 then "normal"
           else if v < quantileSorted (hist.insertionSort (· ≤ ·)) 0.90 then "elevated"
           else "extreme") := by
  have hne : hist.isEmpty = false := by
    cases hist with
    | nil => exact absurd rfl h
    | cons a l => rfl
  simp [identifyVolatilityRegime, ssQuantile, hne]

/-! ### C7: GARCH forecast -/

/-- C7: for at least 30 returns, the GARCH forecast is
`sqrt(1e-6 + 0.08·r² + 0.90·v²)` with `r` the last return; for fewer
than 30 returns no forecast is produced (`null`). -/
theorem garch_forecast_formula (returns : List ℝ) (v : ℝ) :
    forecastGARCH returns v =
      if 30 ≤ returns.length then
        some (Real.sqrt (0.000001 + 0.08 * (returns.getLast?.getD 0) ^ 2 +
          0.90 * v ^ 2))
      else none := by
  unfold forecastGARCH
  by_cases h : returns.length < 30
  · rw [if_pos h, if_neg (by omega)]
  · have h30 : 30 ≤ returns.length := Nat.not_lt.mp h
    rw [if_neg h, if_pos h30]
    have : returns.getD (returns.length - 1) 0 = returns.getLast?.getD 0 := by
      rw [List.getLast?_eq_getElem?, List.getD_eq_getElem?_getD]
    rw [this]

/-! ### C9: realized volatility -/

/-- C9: realized volatility equals the (population) standard deviation of
the return sample times `√annualizationFactor` and is non-negative; for
fewer than two returns no value is produced. -/
theorem realized_volatility_formula (returns : List ℝ) (f : ℝ) :
    (calculateRealizedVolatility returns f =
      if 2 ≤ returns.length then
        some (ssStandardDeviation returns * Real.sqrt f)
      else none) ∧
    0 ≤ ssStandardDeviation returns * Real.sqrt f := by
  refine ⟨?_, mul_nonneg (Real.sqrt_nonneg _) (Real.sqrt_nonneg _)⟩
  unfold calculateRealizedVolatility ssStandardDeviation ssVariance
  by_cases h : returns.length < 2
  · rw [if_pos h, if_neg (by omega)]
  · rw [if_neg h, if_pos (Nat.not_lt.mp h)]

/-! ### C2: short inputs -/

/-- C2 (amended): for inputs shorter than each operation's minimum
window, `calculateReturns` silently yields an empty list, and every
other estimator- or model-level operation returns the JS `null`
sentinel (`none`) — no distinguished error kinds exist in the code. -/
theorem short_input_null_sentinels :
    (∀ prices type, prices.length < 2 → calculateReturns prices type = []) ∧
    (∀ returns f, returns.length < 2 → calculateRealizedVolatility returns f = none) ∧
    (∀ hs ls n, hs.length < 2 → calculateParkinsonVolatility hs ls n = none) ∧
    (∀ o h l c n, o.length < 2 → calculateGarmanKlassVolatility o h l c n = none) ∧
    (∀ h l c p, h.length < p + 1 → calculateATR h l c p = none) ∧
    (∀ prices p k, prices.length < p → calculateBollingerBandWidth prices p k = none) ∧
    (∀ vols, vols.length < 22 → fitHARModel vols = .ok none) ∧
    (∀ m vols, vols.length < 22 → forecastHAR m vols = none) ∧
    (∀ returns v, returns.length < 30 → forecastGARCH returns v = none) := by
  refine ⟨?_, ?_, ?_, ?_, ?_, ?_, ?_, ?_, ?_⟩
  · intro prices type h
    have : prices.length - 1 = 0 := by omega
    simp [calculateReturns, this]
  · intro returns f h
    simp [calculateRealizedVolatility, h]
  · intro hs ls n h
    simp [calculateParkinsonVolatility, h]
  · intro o h l c n hlen
    simp [calculateGarmanKlassVolatility, hlen]
  · intro h l c p hlen
    simp [calculateATR, hlen]
  · intro prices p k h
    simp [calculateBollingerBandWidth, h]
  · intro vols h
    simp [fitHARModel, h]
  · intro m vols h
    cases m with
    | none => rfl
    | some mm => simp [forecastHAR, h]
  · intro returns v h
    simp [forecastGARCH, h]

/-- Witness for C2's theorem at concrete short inputs. -/
theorem short_input_null_sentinels_witness :
    calculateReturns [(100 : ℝ)] "log" = [] ∧
    calculateRealizedVolatility [(0.01 : ℝ)] 252 = none ∧
    calculateParkinsonVolatility [(1 : ℝ)] [(1 : ℝ)] 252 = none ∧
    calculateGarmanKlassVolatility [(1 : ℝ)] [1] [1] [1] 252 = none ∧
    calculateATR [(1 : ℝ)] [1] [1] 14 = none ∧
    calculateBollingerBandWidth [(1 : ℝ), 2] 20 2 = none ∧
    fitHARModel (List.replicate 10 (0 : ℝ)) = .ok none ∧
    forecastHAR none [(1 : ℝ)] = none ∧
    forecastGARCH [(0.01 : ℝ)] 0.1 = none :=
  ⟨short_input_null_sentinels.1 _ _ (by simp),
   short_input_null_sentinels.2.1 _ _ (by simp),
   short_input_null_sentinels.2.2.1 _ _ _ (by simp),
   short_input_null_sentinels.2.2.2.1 _ _ _ _ _ (by simp),
   short_input_null_sentinels.2.2.2.2.1 _ _ _ _ (by simp),
   short_input_null_sentinels.2.2.2.2.2.1 _ _ _ (by simp),
   short_input_null_sentinels.2.2.2.2.2.2.1 _ (by simp),
   short_input_null_sentinels.2.2.2.2.2.2.2.1 _ _ (by simp),
   short_input_null_sentinels.2.2.2.2.2.2.2.2 _ _ (by simp)⟩

/-- Counterexample to C2 as stated: on inputs below the minimum window
the operations do not raise any specific error kind — realized
volatility and Bollinger width return the `null` sentinel, and
`calculateReturns` does not fail at all (it returns an empty list). -/
theorem short_input_counterexample :
    calculateRealizedVolatility [(0.02 : ℝ)] 252 = none ∧
    calculateBollingerBandWidth [(3 : ℝ)] 20 2 = none ∧
    calculateReturns [(5 : ℝ)] "simple" = [] := by
  refine ⟨?_, ?_, ?_⟩
  · simp [calculateRealizedVolatility]
  · simp [calculateBollingerBandWidth]
  · simp [calculateReturns]

/-! ### C4: HAR fit boundary -/

/-- C4 (amended): at exactly 21 rolling-volatility points the HAR fit
returns `null` (the insufficient-data branch); at exactly 22 points the
fit does NOT succeed either — the loop builds zero feature rows, and the
regression errors on the empty matrix product, so the smallest input
that can produce a fitted parameter set has at least 23 points. -/
theorem har_fit_boundary (vols : List ℝ) :
    (vols.length = 21 → fitHARModel vols = .ok none) ∧
    (vols.length = 22 → fitHARModel vols = .error .emptyVectorProduct) := by
  constructor
  · intro h
    simp [fitHARModel, h]
  · intro h
    simp [fitHARModel, h, harRows, harTargets, ordinaryLeastSquares]

/-- Witness for C4's theorem at concrete 21- and 22-point inputs. -/
theorem har_fit_boundary_witness :
    fitHARModel (List.replicate 21 (0 : ℝ)) = .ok none ∧
    fitHARModel (List.replicate 22 (0 : ℝ)) = .error .emptyVectorProduct :=
  ⟨(har_fit_boundary _).1 (by simp), (har_fit_boundary _).2 (by simp)⟩

/-- Counterexample to C4 as stated: a series of exactly 22 rolling
points does not yield a fitted parameter set — the fit throws (the
regression is handed an empty design matrix). -/
theorem har_fit_22_counterexample :
    fitHARModel (List.replicate 22 (1 : ℝ)) = .error .emptyVectorProduct := by
  simp [fitHARModel, harRows, harTargets, ordinaryLeastSquares]

/-! ### C5 and C10: the signal generator -/

theorem generate_eq_rules (vd : VolatilityData) (pd : PriceDataIn) :
    generateVolatilitySignals vd pd =
      meanReversionRule vd ++ lowVolTrendRule vd pd ++ breakoutRule vd ++
        harDivergenceRule vd := by
  unfold generateVolatilitySignals meanReversionRule lowVolTrendRule
    breakoutRule harDivergenceRule
  by_cases h1 : vd.regime = "extreme" ∧
      jsNum vd.har_forecast < jsNum vd.realized_volatility <;>
  by_cases h2 : vd.regime = "low" ∧ pd.trend = "up" <;>
  by_cases h3 : jsNum vd.bollinger_width > vd.historical_avg_width * 1.5 <;>
  by_cases h4 : |jsNum vd.har_forecast - jsNum vd.realized_volatility| >
      jsNum vd.realized_volatility * 0.2 <;>
  simp [h1, h2, h3, h4]

theorem mem_meanReversionRule (vd : VolatilityData) :
    (⟨"volatility_mean_reversion", "prepare_to_buy", 0.8,
      "Extreme volatility likely to revert"⟩ : Signal) ∈ meanReversionRule vd ↔
      vd.regime = "extreme" ∧
        jsNum vd.har_forecast < jsNum vd.realized_volatility := by
  unfold meanReversionRule
  by_cases hc : vd.regime = "extreme" ∧
      jsNum vd.har_forecast < jsNum vd.realized_volatility
  · rw [if_pos hc]; simpa using hc
  · rw [if_neg hc]; simpa using hc

theorem type_of_mem_lowVolTrendRule (vd : VolatilityData) (pd : PriceDataIn)
    (s : Signal) (hs : s ∈ lowVolTrendRule vd pd) : s.type = "low_vol_trend" := by
  unfold lowVolTrendRule at hs
  by_cases hc : vd.regime = "low" ∧ pd.trend = "up"
  · rw [if_pos hc] at hs
    rw [List.mem_singleton.mp hs]
  · rw [if_neg hc] at hs
    exact absurd hs (List.not_mem_nil s)

theorem type_of_mem_breakoutRule (vd : VolatilityData)
    (s : Signal) (hs : s ∈ breakoutRule vd) : s.type = "volatility_breakout" := by
  unfold breakoutRule at hs
  by_cases hc : jsNum vd.bollinger_width > vd.historical_avg_width * 1.5
  · rw [if_pos hc] at hs
    rw [List.mem_singleton.mp hs]
  · rw [if_neg hc] at hs
    exact absurd hs (List.not_mem_nil s)

theorem type_of_mem_harDivergenceRule (vd : VolatilityData)
    (s : Signal) (hs : s ∈ harDivergenceRule vd) : s.type = "har_divergence" := by
  unfold harDivergenceRule at hs
  by_cases hc : |jsNum vd.har_forecast - jsNum vd.realized_volatility| >
      jsNum vd.realized_volatility * 0.2
  · rw [if_pos hc] at hs
    rw [List.mem_singleton.mp hs]
  · rw [if_neg hc] at hs
    exact absurd hs (List.not_mem_nil s)

/-- C5: the generator returns exactly the signals of the four rules
whose conditions hold, in the fixed order mean-reversion, low-vol-trend,
breakout, HAR-divergence (each rule a pure function of the inputs); in
particular, with a non-null forecast and realized volatility, the
mean-reversion signal is present iff the regime is `extreme` and the
HAR daily forecast is below realized volatility. -/
theorem signal_rules_ordered (vd : VolatilityData) (pd : PriceDataIn) :
    generateVolatilitySignals vd pd =
      meanReversionRule vd ++ lowVolTrendRule vd pd ++ breakoutRule vd ++
        harDivergenceRule vd ∧
    ∀ h r, vd.har_forecast = some h → vd.realized_volatility = some r →
      ((⟨"volatility_mean_reversion", "prepare_to_buy", 0.8,
         "Extreme volatility likely to revert"⟩ : Signal) ∈
          generateVolatilitySignals vd pd ↔
        vd.regime = "extreme" ∧ h < r) := by
  refine ⟨generate_eq_rules vd pd, ?_⟩
  intro h r hh hr
  rw [generate_eq_rules vd pd]
  have hj1 : jsNum vd.har_forecast = h := by simp [jsNum, hh]
  have hj2 : jsNum vd.realized_volatility = r := by simp [jsNum, hr]
  constructor
  · intro hm
    rcases List.mem_append.mp hm with hm' | hm4
    · rcases List.mem_append.mp hm' with hm'' | hm3
      · rcases List.mem_append.mp hm'' with hm1 | hm2
        · have := (mem_meanReversionRule vd).mp hm1
          rw [hj1, hj2] at this
          exact this
        · have := type_of_mem_lowVolTrendRule vd pd _ hm2
          simp at this
      · have := type_of_mem_breakoutRule vd _ hm3
        simp at this
    · have := type_of_mem_harDivergenceRule vd _ hm4
      simp at this
  · intro hcond
    apply List.mem_append_left
    apply List.mem_append_left
    apply List.mem_append_left
    apply (mem_meanReversionRule vd).mpr
    rw [hj1, hj2]
    exact hcond

/-- Witness for C5's theorem: with regime `extreme`, forecast `0` and
realized volatility `1`, the mean-reversion signal is emitted. -/
theorem signal_rules_ordered_witness :
    (⟨"volatility_mean_reversion", "prepare_to_buy", 0.8,
      "Extreme volatility likely to revert"⟩ : Signal) ∈
      generateVolatilitySignals ⟨"extreme", some 0, some 1, none, 0.1⟩
        ⟨"sideways", 0⟩ :=
  ((signal_rules_ordered _ _).2 0 1 rfl rfl).mpr ⟨rfl, by norm_num⟩

/-- C10: when the HAR daily forecast is `null` (model not fitted) and
realized volatility is positive, the missing forecast participates in
the comparisons as `0`, so the HAR-divergence signal always fires, and
the mean-reversion signal fires as well whenever the regime is
`extreme`. -/
theorem null_forecast_still_signals (vd : VolatilityData) (pd : PriceDataIn)
    (r : ℝ) (hhar : vd.har_forecast = none)
    (hrv : vd.realized_volatility = some r) (hr : 0 < r) :
    (⟨"har_divergence", "hedge", 0.65,
      "HAR model shows significant divergence"⟩ : Signal) ∈
        generateVolatilitySignals vd pd ∧
    (vd.regime = "extreme" →
      (⟨"volatility_mean_reversion", "prepare_to_buy", 0.8,
        "Extreme volatility likely to revert"⟩ : Signal) ∈
          generateVolatilitySignals vd pd) := by
  rw [generate_eq_rules]
  have hj1 : jsNum vd.har_forecast = 0 := by simp [jsNum, hhar]
  have hj2 : jsNum vd.realized_volatility = r := by simp [jsNum, hrv]
  constructor
  · apply List.mem_append_right
    unfold harDivergenceRule
    rw [if_pos (by rw [hj1, hj2, zero_sub, abs_neg, abs_of_pos hr]; nlinarith)]
    exact List.mem_singleton.mpr rfl
  · intro hreg
    apply List.mem_append_left
    apply List.mem_append_left
    apply List.mem_append_left
    unfold meanReversionRule
    rw [if_pos ⟨hreg, by rw [hj1, hj2]; exact hr⟩]
    exact List.mem_singleton.mpr rfl

/-- Witness for C10's theorem: regime `extreme`, `null` forecast,
realized volatility `1` — both signals fire. -/
theorem null_forecast_still_signals_witness :
    (⟨"har_divergence", "hedge", 0.65,
      "HAR model shows significant divergence"⟩ : Signal) ∈
      generateVolatilitySignals ⟨"extreme", none, some 1, none, 0.1⟩
        ⟨"sideways", 0⟩ ∧
    (⟨"volatility_mean_reversion", "prepare_to_buy", 0.8,
      "Extreme volatility likely to revert"⟩ : Signal) ∈
      generateVolatilitySignals ⟨"extreme", none, some 1, none, 0.1⟩
        ⟨"sideways", 0⟩ :=
  ⟨(null_forecast_still_signals _ _ 1 rfl rfl one_pos).1,
   (null_forecast_still_signals _ _ 1 rfl rfl one_pos).2 rfl⟩

/-! ### C6: HAR forecast scaling -/

/-- C6: whenever the pipeline produces a HAR daily forecast, the weekly
forecast is exactly `daily · √5` and the monthly forecast exactly
`daily · √22` — no separate regression for the longer horizons. -/
theorem har_forecast_scaling (m : Option HARParams) (vols : List ℝ)
    (d : ℝ) (w mo : Option ℝ)
    (h : computeHARForecasts m vols = (some d, w, mo)) :
    w = some (d * Real.sqrt 5) ∧ mo = some (d * Real.sqrt 22) := by
  unfold computeHARForecasts at h
  by_cases hc : m.isSome = true ∧ 22 ≤ vols.length
  · rw [if_pos hc] at h
    simp only [Prod.mk.injEq] at h
    obtain ⟨h1, h2, h3⟩ := h
    rw [← h2, ← h3, h1]
    constructor <;> simp [jsNum]
  · rw [if_neg hc] at h
    simp only [Prod.mk.injEq] at h
    exact absurd h.1 (by simp)

/-- Witness for C6's theorem: an intercept-only model over 22 flat
rolling points forecasts daily `1`, weekly `1·√5`, monthly `1·√22`. -/
theorem har_forecast_scaling_witness :
    computeHARForecasts (some ⟨1, 0, 0, 0, 0, 0⟩) (List.replicate 22 (0 : ℝ)) =
      (some 1, some (1 * Real.sqrt 5), some (1 * Real.sqrt 22)) ∧
    (some ((1 : ℝ) * Real.sqrt 5) = some ((1 : ℝ) * Real.sqrt 5) ∧
     some ((1 : ℝ) * Real.sqrt 22) = some ((1 : ℝ) * Real.sqrt 22)) := by
  have hEval : computeHARForecasts (some ⟨1, 0, 0, 0, 0, 0⟩)
      (List.replicate 22 (0 : ℝ)) =
      (some 1, some (1 * Real.sqrt 5), some (1 * Real.sqrt 22)) := by
    simp [computeHARForecasts, forecastHAR, jsNum, ssMean]
  exact ⟨hEval, har_forecast_scaling _ _ 1 _ _ hEval⟩

/-! ### C8: regime classifier -/

theorem sorted_getD_mono (s : List ℝ) (hs : s.Sorted (· ≤ ·))
    (i j : ℕ) (hij : i ≤ j) (hj : j < s.length) :
    s.getD i 0 ≤ s.getD j 0 := by
  have hi : i < s.length := lt_of_le_of_lt hij hj
  rw [List.getD_eq_getElem s 0 hi, List.getD_eq_getElem s 0 hj]
  rcases Nat.lt_or_ge i j with hlt | hge
  · exact List.pairwise_iff_getElem.mp hs i j hi hj hlt
  · have hij' : i = j := Nat.le_antisymm hij hge
    subst hij'
    exact le_refl _

/-- Upper bound: a `quantileSorted` value at `0 < p < 1` is at most the
order statistic at `⌊length·p⌋`. -/
theorem quantileSorted_le_floor (s : List ℝ) (hs : s.Sorted (· ≤ ·))
    (p : ℝ) (hp0 : 0 < p) (hp1 : p < 1) (hne : s ≠ []) :
    quantileSorted s p ≤ s.getD ⌊(s.length : ℝ) * p⌋₊ 0 := by
  have hlen : 0 < s.length := List.length_pos.mpr hne
  have hlenR : (0 : ℝ) < (s.length : ℝ) := by exact_mod_cast hlen
  have hidx0 : (0 : ℝ) < (s.length : ℝ) * p := mul_pos hlenR hp0
  have hidxlt : (s.length : ℝ) * p < (s.length : ℝ) := by nlinarith
  unfold quantileSorted
  rw [if_neg (ne_of_lt hp1), if_neg (ne_of_gt hp0)]
  by_cases hfrac : (s.length : ℝ) * p ≠ (⌊(s.length : ℝ) * p⌋₊ : ℝ)
  · rw [if_pos hfrac]
    have hflt : (⌊(s.length : ℝ) * p⌋₊ : ℝ) < (s.length : ℝ) * p :=
      lt_of_le_of_ne (Nat.floor_le (le_of_lt hidx0)) (Ne.symm hfrac)
    have hceil : ⌈(s.length : ℝ) * p⌉₊ = ⌊(s.length : ℝ) * p⌋₊ + 1 := by
      have h1 : ⌊(s.length : ℝ) * p⌋₊ < ⌈(s.length : ℝ) * p⌉₊ := Nat.lt_ceil.mpr hflt
      have h2 : ⌈(s.length : ℝ) * p⌉₊ ≤ ⌊(s.length : ℝ) * p⌋₊ + 1 :=
        Nat.ceil_le_floor_add_one _
      omega
    rw [hceil, Nat.add_sub_cancel]
  · rw [if_neg hfrac]
    push_neg at hfrac
    have hm1 : 1 ≤ ⌊(s.length : ℝ) * p⌋₊ := by
      have h0 : (0 : ℝ) < (⌊(s.length : ℝ) * p⌋₊ : ℝ) := hfrac ▸ hidx0
      exact_mod_cast h0
    have hmlt : ⌊(s.length : ℝ) * p⌋₊ < s.length := by
      have h0 : (⌊(s.length : ℝ) * p⌋₊ : ℝ) < (s.length : ℝ) := hfrac ▸ hidxlt
      exact_mod_cast h0
    by_cases hpar : s.length % 2 = 0
    · rw [if_pos hpar]
      have hadj : s.getD (⌊(s.length : ℝ) * p⌋₊ - 1) 0 ≤
          s.getD ⌊(s.length : ℝ) * p⌋₊ 0 :=
        sorted_getD_mono s hs _ _ (Nat.sub_le _ _) hmlt
      linarith
    · rw [if_neg hpar]

/-- Lower bound: a `quantileSorted` value at `0 < p < 1` is at least the
order statistic at `⌈length·p⌉ - 1`. -/
theorem ceil_pred_le_quantileSorted (s : List ℝ) (hs : s.Sorted (· ≤ ·))
    (p : ℝ) (hp0 : 0 < p) (hp1 : p < 1) (hne : s ≠ []) :
    s.getD (⌈(s.length : ℝ) * p⌉₊ - 1) 0 ≤ quantileSorted s p := by
  have hlen : 0 < s.length := List.length_pos.mpr hne
  have hlenR : (0 : ℝ) < (s.length : ℝ) := by exact_mod_cast hlen
  have hidx0 : (0 : ℝ) < (s.length : ℝ) * p := mul_pos hlenR hp0
  have hidxlt : (s.length : ℝ) * p < (s.length : ℝ) := by nlinarith
  unfold quantileSorted
  rw [if_neg (ne_of_lt hp1), if_neg (ne_of_gt hp0)]
  by_cases hfrac : (s.length : ℝ) * p ≠ (⌊(s.length : ℝ) * p⌋₊ : ℝ)
  · rw [if_pos hfrac]
  · rw [if_neg hfrac]
    push_neg at hfrac
    have hceil : ⌈(s.length : ℝ) * p⌉₊ = ⌊(s.length : ℝ) * p⌋₊ :=
      le_antisymm (Nat.ceil_le.mpr (le_of_eq hfrac)) (Nat.floor_le_ceil _)
    have hm1 : 1 ≤ ⌊(s.length : ℝ) * p⌋₊ := by
      have h0 : (0 : ℝ) < (⌊(s.length : ℝ) * p⌋₊ : ℝ) := hfrac ▸ hidx0
      exact_mod_cast h0
    have hmlt : ⌊(s.length : ℝ) * p⌋₊ < s.length := by
      have h0 : (⌊(s.length : ℝ) * p⌋₊ : ℝ) < (s.length : ℝ) := hfrac ▸ hidxlt
      exact_mod_cast h0
    have hadj : s.getD (⌊(s.length : ℝ) * p⌋₊ - 1) 0 ≤
        s.getD ⌊(s.length : ℝ) * p⌋₊ 0 :=
      sorted_getD_mono s hs _ _ (Nat.sub_le _ _) hmlt
    rw [hceil]
    by_cases hpar : s.length % 2 = 0
    · rw [if_pos hpar]
      linarith
    · rw [if_neg hpar]
      exact hadj

/-- `quantileSorted` is monotone in the probability, on a sorted list. -/
theorem quantileSorted_mono (s : List ℝ) (hs : s.Sorted (· ≤ ·)) (hne : s ≠ [])
    (p q : ℝ) (hp0 : 0 < p) (hp1 : p < 1) (hq0 : 0 < q) (hq1 : q < 1)
    (hpq : p ≤ q) : quantileSorted s p ≤ quantileSorted s q := by
  rcases eq_or_lt_of_le hpq with heq | hlt
  · rw [heq]
  · have hlen : 0 < s.length := List.length_pos.mpr hne
    have hlenR : (0 : ℝ) < (s.length : ℝ) := by exact_mod_cast hlen
    have hidxlt : (s.length : ℝ) * p < (s.length : ℝ) * q :=
      mul_lt_mul_of_pos_left hlt hlenR
    have hkey : ⌊(s.length : ℝ) * p⌋₊ ≤ ⌈(s.length : ℝ) * q⌉₊ - 1 := by
      have h1 : (⌊(s.length : ℝ) * p⌋₊ : ℝ) ≤ (s.length : ℝ) * p :=
        Nat.floor_le (by positivity)
      have h2 : ⌊(s.length : ℝ) * p⌋₊ < ⌈(s.length : ℝ) * q⌉₊ :=
        Nat.lt_ceil.mpr (lt_of_le_of_lt h1 hidxlt)
      omega
    have hinrange : ⌈(s.length : ℝ) * q⌉₊ - 1 < s.length := by
      have h3 : ⌈(s.length : ℝ) * q⌉₊ ≤ s.length := Nat.ceil_le.mpr (by nlinarith)
      omega
    calc quantileSorted s p
        ≤ s.getD ⌊(s.length : ℝ) * p⌋₊ 0 :=
          quantileSorted_le_floor s hs p hp0 hp1 hne
      _ ≤ s.getD (⌈(s.length : ℝ) * q⌉₊ - 1) 0 :=
          sorted_getD_mono s hs _ _ hkey hinrange
      _ ≤ quantileSorted s q :=
          ceil_pred_le_quantileSorted s hs q hq0 hq1 hne

theorem oneToHundred_length : oneToHundred.length = 100 := by
  unfold oneToHundred
  rw [List.length_map, List.length_range]

theorem oneToHundred_ne_nil : oneToHundred ≠ [] := by
  intro hnil
  have h := oneToHundred_length
  rw [hnil] at h
  simp at h

theorem oneToHundred_sorted :
    oneToHundred.insertionSort (· ≤ ·) = oneToHundred := by
  apply List.Sorted.insertionSort_eq
  unfold oneToHundred
  exact List.Pairwise.map (fun (k : ℕ) => (k : ℝ) + 1)
    (fun a b hab => by
      show (a : ℝ) + 1 ≤ (b : ℝ) + 1
      have hab' : (a : ℝ) < (b : ℝ) := by exact_mod_cast hab
      linarith)
    (List.pairwise_lt_range 100)

theorem oneToHundred_getD (k : ℕ) (hk : k < 100) :
    oneToHundred.getD k 0 = (k : ℝ) + 1 := by
  unfold oneToHundred
  rw [List.getD_eq_getElem?_getD, List.getElem?_map, List.getElem?_range hk]
  rfl

/-- `ss.quantile` of `{1,...,100}` at an integral index `m = 100·p`:
the average of the `m`-th and `(m+1)`-st order statistics. -/
theorem quantileSorted_oneToHundred (p : ℝ) (m : ℕ) (hp1 : p ≠ 1)
    (hp0 : p ≠ 0) (hm : (100 : ℝ) * p = (m : ℝ)) (hmlt : m < 100)
    (hm1 : 1 ≤ m) :
    quantileSorted oneToHundred p = ((m : ℝ) + (m : ℝ) + 1) / 2 := by
  simp only [quantileSorted, oneToHundred_length, Nat.cast_ofNat]
  rw [hm, if_neg hp1, if_neg hp0, Nat.floor_natCast,
    if_neg (by simp), if_pos (by norm_num),
    oneToHundred_getD (m - 1) (by omega), oneToHundred_getD m hmlt,
    Nat.cast_sub hm1]
  push_cast
  ring

/-- C8: the regime classifier returns `low` below the 25th percentile of
the reference set, `normal` from the 25th (inclusive) up to the 75th,
`elevated` from the 75th (inclusive) up to the 90th, and `extreme` at or
above the 90th; and for the reference set `{1,...,100}`, current
volatility `100` classifies `extreme`, `50` classifies `normal`, and
`10` classifies `low`. -/
theorem regime_classifier_thresholds :
    (∀ v hist, hist ≠ [] →
      ((identifyVolatilityRegime v hist = .ok "low" ↔
          v < quantileSorted (hist.insertionSort (· ≤ ·)) 0.25) ∧
       (identifyVolatilityRegime v hist = .ok "normal" ↔
          quantileSorted (hist.insertionSort (· ≤ ·)) 0.25 ≤ v ∧
            v < quantileSorted (hist.insertionSort (· ≤ ·)) 0.75) ∧
       (identifyVolatilityRegime v hist = .ok "elevated" ↔
          quantileSorted (hist.insertionSort (· ≤ ·)) 0.75 ≤ v ∧
            v < quantileSorted (hist.insertionSort (· ≤ ·)) 0.90) ∧
       (identifyVolatilityRegime v hist = .ok "extreme" ↔
          quantileSorted (hist.insertionSort (· ≤ ·)) 0.90 ≤ v))) ∧
    identifyVolatilityRegime 100 oneToHundred = .ok "extreme" ∧
    identifyVolatilityRegime 50 oneToHundred = .ok "normal" ∧
    identifyVolatilityRegime 10 oneToHundred = .ok "low" := by
  have hgen : ∀ v hist, hist ≠ [] →
      ((identifyVolatilityRegime v hist = .ok "low" ↔
          v < quantileSorted (hist.insertionSort (· ≤ ·)) 0.25) ∧
       (identifyVolatilityRegime v hist = .ok "normal" ↔
          quantileSorted (hist.insertionSort (· ≤ ·)) 0.25 ≤ v ∧
            v < quantileSorted (hist.insertionSort (· ≤ ·)) 0.75) ∧
       (identifyVolatilityRegime v hist = .ok "elevated" ↔
          quantileSorted (hist.insertionSort (· ≤ ·)) 0.75 ≤ v ∧
            v < quantileSorted (hist.insertionSort (· ≤ ·)) 0.90) ∧
       (identifyVolatilityRegime v hist = .ok "extreme" ↔
          quantileSorted (hist.insertionSort (· ≤ ·)) 0.90 ≤ v)) := by
    intro v hist hne
    have hsorted : (hist.insertionSort (· ≤ ·)).Sorted (· ≤ ·) :=
      List.sorted_insertionSort _ hist
    have hsne : hist.insertionSort (· ≤ ·) ≠ [] := by
      intro hnil
      have hl := List.length_insertionSort (· ≤ ·) hist
      rw [hnil] at hl
      exact hne (List.length_eq_zero.mp hl.symm)
    have m1 : quantileSorted (hist.insertionSort (· ≤ ·)) 0.25 ≤
        quantileSorted (hist.insertionSort (· ≤ ·)) 0.75 :=
      quantileSorted_mono _ hsorted hsne 0.25 0.75 (by norm_num) (by norm_num)
        (by norm_num) (by norm_num) (by norm_num)
    have m2 : quantileSorted (hist.insertionSort (· ≤ ·)) 0.75 ≤
        quantileSorted (hist.insertionSort (· ≤ ·)) 0.90 :=
      quantileSorted_mono _ hsorted hsne 0.75 0.90 (by norm_num) (by norm_num)
        (by norm_num) (by norm_num) (by norm_num)
    rw [identifyVolatilityRegime_ok v hist hne]
    set q1 := quantileSorted (hist.insertionSort (· ≤ ·)) 0.25 with hq1def
    set q2 := quantileSorted (hist.insertionSort (· ≤ ·)) 0.75 with hq2def
    set q3 := quantileSorted (hist.insertionSort (· ≤ ·)) 0.90 with hq3def
    rcases lt_or_le v q1 with h1 | h1
    · rw [if_pos h1]
      refine ⟨⟨fun _ => h1, fun _ => rfl⟩, ?_, ?_, ?_⟩
      · refine ⟨fun h => ?_, fun h => ?_⟩
        · injection h with h'
          exact absurd h' (by decide)
        · exact absurd h1 (not_lt.mpr h.1)
      · refine ⟨fun h => ?_, fun h => ?_⟩
        · injection h with h'
          exact absurd h' (by decide)
        · exact absurd h1 (not_lt.mpr (le_trans m1 h.1))
      · refine ⟨fun h => ?_, fun h => ?_⟩
        · injection h with h'
          exact absurd h' (by decide)
        · exact absurd h1 (not_lt.mpr (le_trans m1 (le_trans m2 h)))
    · rcases lt_or_le v q2 with h2 | h2
      · rw [if_neg (not_lt.mpr h1), if_pos h2]
        refine ⟨?_, ⟨fun _ => ⟨h1, h2⟩, fun _ => rfl⟩, ?_, ?_⟩
        · refine ⟨fun h => ?_, fun h => ?_⟩
          · injection h with h'
            exact absurd h' (by decide)
          · exact absurd h (not_lt.mpr h1)
        · refine ⟨fun h => ?_, fun h => ?_⟩
          · injection h with h'
            exact absurd h' (by decide)
          · exact absurd h2 (not_lt.mpr h.1)
        · refine ⟨fun h => ?_, fun h => ?_⟩
          · injection h with h'
            exact absurd h' (by decide)
          · exact absurd h2 (not_lt.mpr (le_trans m2 h))
      · rcases lt_or_le v q3 with h3 | h3
        · rw [if_neg (not_lt.mpr h1), if_neg (not_lt.mpr h2), if_pos h3]
          refine ⟨?_, ?_, ⟨fun _ => ⟨h2, h3⟩, fun _ => rfl⟩, ?_⟩
          · refine ⟨fun h => ?_, fun h => ?_⟩
            · injection h with h'
              exact absurd h' (by decide)
            · exact absurd h (not_lt.mpr h1)
          · refine ⟨fun h => ?_, fun h => ?_⟩
            · injection h with h'
              exact absurd h' (by decide)
            · exact absurd h.2 (not_lt.mpr h2)
          · refine ⟨fun h => ?_, fun h => ?_⟩
            · injection h with h'
              exact absurd h' (by decide)
            · exact absurd h3 (not_lt.mpr h)
        · rw [if_neg (not_lt.mpr h1), if_neg (not_lt.mpr h2),
            if_neg (not_lt.mpr h3)]
          refine ⟨?_, ?_, ?_, ⟨fun _ => h3, fun _ => rfl⟩⟩
          · refine ⟨fun h => ?_, fun h => ?_⟩
            · injection h with h'
              exact absurd h' (by decide)
            · exact absurd h (not_lt.mpr h1)
          · refine ⟨fun h => ?_, fun h => ?_⟩
            · injection h with h'
              exact absurd h' (by decide)
            · exact absurd h.2 (not_lt.mpr h2)
          · refine ⟨fun h => ?_, fun h => ?_⟩
            · injection h with h'
              exact absurd h' (by decide)
            · exact absurd h.2 (not_lt.mpr h3)
  refine ⟨hgen, ?_, ?_, ?_⟩
  · have hq90 : quantileSorted oneToHundred 0.90 = 90.5 := by
      rw [quantileSorted_oneToHundred 0.90 90 (by norm_num) (by norm_num)
        (by norm_num) (by norm_num) (by norm_num)]
      norm_num
    refine ((hgen 100 oneToHundred oneToHundred_ne_nil).2.2.2).mpr ?_
    rw [oneToHundred_sorted, hq90]
    norm_num
  · have hq25 : quantileSorted oneToHundred 0.25 = 25.5 := by
      rw [quantileSorted_oneToHundred 0.25 25 (by norm_num) (by norm_num)
        (by norm_num) (by norm_num) (by norm_num)]
      norm_num
    have hq75 : quantileSorted oneToHundred 0.75 = 75.5 := by
      rw [quantileSorted_oneToHundred 0.75 75 (by norm_num) (by norm_num)
        (by norm_num) (by norm_num) (by norm_num)]
      norm_num
    refine ((hgen 50 oneToHundred oneToHundred_ne_nil).2.1).mpr ?_
    rw [oneToHundred_sorted, hq25, hq75]
    norm_num
  · have hq25 : quantileSorted oneToHundred 0.25 = 25.5 := by
      rw [quantileSorted_oneToHundred 0.25 25 (by norm_num) (by norm_num)
        (by norm_num) (by norm_num) (by norm_num)]
      norm_num
    refine ((hgen 10 oneToHundred oneToHundred_ne_nil).1).mpr ?_
    rw [oneToHundred_sorted, hq25]
    norm_num

/-- Witness for C8's theorem (the quantified part, applied to the
one-element reference set `[1]` and current volatility `10`). -/
theorem regime_classifier_thresholds_witness :
    identifyVolatilityRegime 10 [(1 : ℝ)] = .ok "extreme" := by
  apply ((regime_classifier_thresholds.1 10 [(1 : ℝ)] (by simp)).2.2.2).mpr
  have hsort : ([(1 : ℝ)].insertionSort (· ≤ ·)) = [(1 : ℝ)] := rfl
  rw [hsort]
  have hfl : ⌊(0.90 : ℝ)⌋₊ = 0 := by
    rw [Nat.floor_eq_zero]
    norm_num
  have hcl : ⌈(0.90 : ℝ)⌉₊ = 1 := by
    rw [Nat.ceil_eq_iff (by norm_num)]
    norm_num
  have hq : quantileSorted [(1 : ℝ)] 0.90 = 1 := by
    simp only [quantileSorted, List.length_singleton, Nat.cast_one, one_mul,
      hfl, hcl]
    rw [if_neg (by norm_num), if_neg (by norm_num), if_pos (by norm_num)]
    rfl
  rw [hq]
  norm_num

/-! ### C1: Garman–Klass -/

/-- C1 (amended): for at least two bars the Garman–Klass routine returns
the MEAN of the per-bar square roots `sqrt(0.5·u² − (2 ln 2 − 1)·c²)`
times `√n` — the square root is applied per bar before averaging, not to
the mean term — and a negative per-bar term is not rejected as a domain
error (JS silently produces `NaN` through `Math.sqrt`; in this
real-number model `Real.sqrt` of a negative value is `0`). -/
theorem gk_mean_of_roots (openPrices high low close : List ℝ) (n : ℝ)
    (hlen : 2 ≤ openPrices.length) :
    calculateGarmanKlassVolatility openPrices high low close n =
      some (((List.range' 1 (openPrices.length - 1)).map (fun i =>
          Real.sqrt (0.5 * Real.log (high.getD i 0 / low.getD i 0) ^ 2 -
            (2 * Real.log 2 - 1) *
              Real.log (close.getD i 0 / openPrices.getD i 0) ^ 2))).sum /
        ((openPrices.length : ℝ) - 1) * Real.sqrt n) := by
  unfold calculateGarmanKlassVolatility ssMean
  rw [if_neg (by omega)]
  have hmap : ∀ i : ℕ,
      Real.sqrt (0.5 * Real.log (high.getD i 0 / low.getD i 0) *
          Real.log (high.getD i 0 / low.getD i 0) -
        (2 * Real.log 2 - 1) * Real.log (close.getD i 0 / openPrices.getD i 0) *
          Real.log (close.getD i 0 / openPrices.getD i 0)) =
      Real.sqrt (0.5 * Real.log (high.getD i 0 / low.getD i 0) ^ 2 -
        (2 * Real.log 2 - 1) *
          Real.log (close.getD i 0 / openPrices.getD i 0) ^ 2) := by
    intro i
    congr 1
    ring
  simp only [hmap, List.length_map, List.length_range']
  rw [Nat.cast_sub (by omega), Nat.cast_one]

/-- Witness for C1's amended theorem on a concrete two-bar series. -/
theorem gk_mean_of_roots_witness :
    calculateGarmanKlassVolatility [(1 : ℝ), 1] [1, 1] [1, 1] [1, 1] 252 =
      some (((List.range' 1 (([(1 : ℝ), 1] : List ℝ).length - 1)).map (fun i =>
          Real.sqrt (0.5 * Real.log (([(1 : ℝ), 1] : List ℝ).getD i 0 /
              ([(1 : ℝ), 1] : List ℝ).getD i 0) ^ 2 -
            (2 * Real.log 2 - 1) *
              Real.log (([(1 : ℝ), 1] : List ℝ).getD i 0 /
                ([(1 : ℝ), 1] : List ℝ).getD i 0) ^ 2))).sum /
        ((([(1 : ℝ), 1] : List ℝ).length : ℝ) - 1) * Real.sqrt 252) :=
  gk_mean_of_roots [1, 1] [1, 1] [1, 1] [1, 1] 252 (by norm_num)

/-- Counterexample to C1 as stated: on the three-bar series with flat
first two bars and a third bar spanning `[1, e²]`, the code returns
`(√2 / 2)·√252` (the mean of the per-bar square roots `0` and `√2`),
whereas the claimed `sqrt(mean(term))·√n` is `√1·√252 = √252`; the two
differ. -/
theorem gk_counterexample :
    calculateGarmanKlassVolatility [1, 1, 1] [1, 1, Real.exp 2] [1, 1, 1]
        [1, 1, 1] 252 ≠
      (garmanKlassSpecEstimator [1, 1, 1] [1, 1, Real.exp 2] [1, 1, 1]
        [1, 1, 1] 252).toOption := by
  have hr : List.range' 1 2 = [1, 2] := rfl
  have hcode : calculateGarmanKlassVolatility [1, 1, 1] [1, 1, Real.exp 2]
      [1, 1, 1] [1, 1, 1] 252 = some (Real.sqrt 2 / 2 * Real.sqrt 252) := by
    unfold calculateGarmanKlassVolatility
    rw [if_neg (by norm_num)]
    norm_num [hr, ssMean, Real.log_exp]
  have hspec : garmanKlassSpecEstimator [1, 1, 1] [1, 1, Real.exp 2]
      [1, 1, 1] [1, 1, 1] 252 = .ok (Real.sqrt 252) := by
    unfold garmanKlassSpecEstimator
    rw [if_neg (by norm_num)]
    norm_num [hr, ssMean, Real.log_exp]
  rw [hcode, hspec]
  simp only [Except.toOption, ne_eq, Option.some.injEq]
  intro hEq
  have h252 : (0 : ℝ) < Real.sqrt 252 := Real.sqrt_pos.mpr (by norm_num)
  have hhalf : Real.sqrt 2 / 2 = 1 := by
    have := mul_right_cancel₀ (ne_of_gt h252) (hEq.trans (one_mul (Real.sqrt 252)).symm)
    exact this
  have hsq2 : Real.sqrt 2 = 2 := by linarith
  have h2 : Real.sqrt 2 ^ 2 = 2 := Real.sq_sqrt (by norm_num)
  rw [hsq2] at h2
  norm_num at h2

/-! ### C3: the analysis pipeline -/

theorem calculateRealizedVolatility_isSome (returns : List ℝ) (f : ℝ)
    (h : 2 ≤ returns.length) : (calculateRealizedVolatility returns f).isSome := by
  unfold calculateRealizedVolatility
  rw [if_neg (by omega)]
  rfl

theorem calculateParkinsonVolatility_isSome (hs ls : List ℝ) (n : ℝ)
    (hlen : hs.length = ls.length) (h2 : 2 ≤ hs.length) :
    (calculateParkinsonVolatility hs ls n).isSome := by
  unfold calculateParkinsonVolatility
  rw [if_neg (by push_neg; exact ⟨hlen, h2⟩)]
  rfl

theorem calculateGarmanKlassVolatility_isSome (o hi lo cl : List ℝ) (n : ℝ)
    (h2 : 2 ≤ o.length) :
    (calculateGarmanKlassVolatility o hi lo cl n).isSome := by
  unfold calculateGarmanKlassVolatility
  rw [if_neg (by omega)]
  rfl

theorem calculateBollingerBandWidth_isSome (prices : List ℝ) (period : ℕ)
    (k : ℝ) (h : period ≤ prices.length) :
    (calculateBollingerBandWidth prices period k).isSome := by
  unfold calculateBollingerBandWidth
  rw [if_neg (by omega)]
  rfl

theorem calculateATR_isSome (hi lo cl : List ℝ) (p : ℕ)
    (hlen : p + 1 ≤ hi.length) (h2 : 2 ≤ hi.length) :
    (calculateATR hi lo cl p).isSome := by
  unfold calculateATR
  rw [if_neg (by omega)]
  apply calculateEMA_isSome
  intro hnil
  have hzero : ((List.range' 1 (hi.length - 1)).map (fun i =>
      max (hi.getD i 0 - lo.getD i 0)
        (max |hi.getD i 0 - cl.getD (i - 1) 0|
             |lo.getD i 0 - cl.getD (i - 1) 0|))).length = 0 := by
    rw [hnil]
    rfl
  rw [List.length_map, List.length_range'] at hzero
  omega

/-- For 30 to 41 input bars, the pipeline succeeds and returns a
snapshot whose HAR forecast fields are all `null` while the point
estimators all carry values. -/
theorem analyze_har_fields_none (bars : List PriceBar)
    (h30 : 30 ≤ bars.length) (h42 : bars.length < 42) :
    (analyzeVolatility bars).map (fun a =>
      (a.volatility_indicators.har_forecast_daily,
       a.volatility_indicators.har_forecast_weekly,
       a.volatility_indicators.har_forecast_monthly,
       a.volatility_indicators.realized_volatility.isSome,
       a.volatility_indicators.atr_14.isSome,
       a.volatility_indicators.bollinger_band_width.isSome,
       a.volatility_indicators.parkinson_volatility.isSome,
       a.volatility_indicators.garman_klass_volatility.isSome)) =
      .ok (none, none, none, true, true, true, true, true) := by
  have hreturns_len :
      (calculateReturns (bars.map PriceBar.close) "log").length =
        bars.length - 1 := by
    rw [calculateReturns_length, List.length_map]
  have hrv_len :
      (calculateRollingVolatilities
        (calculateReturns (bars.map PriceBar.close) "log") 20).length =
        bars.length - 20 := by
    rw [calculateRollingVolatilities_length, hreturns_len]
    omega
  have hfit : fitHARModel (calculateRollingVolatilities
      (calculateReturns (bars.map PriceBar.close) "log") 20) = .ok none := by
    unfold fitHARModel
    rw [if_pos (by rw [hrv_len]; omega)]
  have hrvne : calculateRollingVolatilities
      (calculateReturns (bars.map PriceBar.close) "log") 20 ≠ [] := by
    intro hnil
    rw [hnil] at hrv_len
    simp at hrv_len
    omega
  have hfc : computeHARForecasts none (calculateRollingVolatilities
      (calculateReturns (bars.map PriceBar.close) "log") 20) =
      (none, none, none) := by
    unfold computeHARForecasts
    rw [if_neg (by simp)]
  have hreg := fun v => identifyVolatilityRegime_ok v _ hrvne
  unfold analyzeVolatility
  rw [if_neg (by omega)]
  simp only [hfit, hreg, hfc, Except.map, Prod.mk.injEq, Except.ok.injEq]
  refine ⟨trivial, trivial, trivial, ?_, ?_, ?_, ?_, ?_⟩
  · exact calculateRealizedVolatility_isSome _ _ (by rw [hreturns_len]; omega)
  · exact calculateATR_isSome _ _ _ _ (by rw [List.length_map]; omega)
      (by rw [List.length_map]; omega)
  · exact calculateBollingerBandWidth_isSome _ _ _ (by rw [List.length_map]; omega)
  · exact calculateParkinsonVolatility_isSome _ _ _
      (by rw [List.length_map, List.length_map]) (by rw [List.length_map]; omega)
  · exact calculateGarmanKlassVolatility_isSome _ _ _ _ _
      (by rw [List.length_map]; omega)

/-- For exactly 42 input bars the rolling series has exactly 22 points,
the HAR fit builds zero feature rows, and the mathjs error raised on the
empty matrix product is rethrown by the pipeline. -/
theorem analyze_throws_at_42 (bars : List PriceBar)
    (h42 : bars.length = 42) :
    analyzeVolatility bars = .error .emptyVectorProduct := by
  have hrv_len22 : (calculateRollingVolatilities
      (calculateReturns (bars.map PriceBar.close) "log") 20).length = 22 := by
    rw [calculateRollingVolatilities_length, calculateReturns_length,
      List.length_map, h42]
  have hfit : fitHARModel (calculateRollingVolatilities
      (calculateReturns (bars.map PriceBar.close) "log") 20) =
      .error .emptyVectorProduct := by
    simp [fitHARModel, hrv_len22, harRows, harTargets, ordinaryLeastSquares]
  unfold analyzeVolatility
  rw [if_neg (by omega)]
  simp only [hfit]

/-- C3 (amended): the pipeline fails explicitly for fewer than 30 bars
(insufficient data); for 30 to 41 bars it returns — as a success — a
partially-filled snapshot in which the three HAR forecast fields are
`null` while realized volatility, ATR, Bollinger width, Parkinson and
Garman–Klass all carry values; and at exactly 42 bars it always fails
again, rethrowing the mathjs error produced by the HAR fit on its
zero-row design matrix. -/
theorem pipeline_partial_snapshot (bars : List PriceBar) :
    (bars.length < 30 → analyzeVolatility bars = .error .insufficientData) ∧
    (30 ≤ bars.length → bars.length < 42 →
      (analyzeVolatility bars).map (fun a =>
        (a.volatility_indicators.har_forecast_daily,
         a.volatility_indicators.har_forecast_weekly,
         a.volatility_indicators.har_forecast_monthly,
         a.volatility_indicators.realized_volatility.isSome,
         a.volatility_indicators.atr_14.isSome,
         a.volatility_indicators.bollinger_band_width.isSome,
         a.volatility_indicators.parkinson_volatility.isSome,
         a.volatility_indicators.garman_klass_volatility.isSome)) =
        .ok (none, none, none, true, true, true, true, true)) ∧
    (bars.length = 42 →
      analyzeVolatility bars = .error .emptyVectorProduct) := by
  refine ⟨?_, ?_, ?_⟩
  · intro h
    unfold analyzeVolatility
    rw [if_pos h]
  · intro h30 h42
    exact analyze_har_fields_none bars h30 h42
  · intro h42
    exact analyze_throws_at_42 bars h42

/-- Witness for C3's theorem at concrete inputs: 29 flat bars throw the
insufficient-data error, 30 flat bars produce the partial snapshot, and
42 flat bars throw the empty-matrix-product error. -/
theorem pipeline_partial_snapshot_witness :
    analyzeVolatility (List.replicate 29 ⟨1, 1, 1, 1, 0⟩) =
      .error .insufficientData ∧
    (analyzeVolatility (List.replicate 30 ⟨1, 1, 1, 1, 0⟩)).map (fun a =>
      (a.volatility_indicators.har_forecast_daily,
       a.volatility_indicators.har_forecast_weekly,
       a.volatility_indicators.har_forecast_monthly,
       a.volatility_indicators.realized_volatility.isSome,
       a.volatility_indicators.atr_14.isSome,
       a.volatility_indicators.bollinger_band_width.isSome,
       a.volatility_indicators.parkinson_volatility.isSome,
       a.volatility_indicators.garman_klass_volatility.isSome)) =
      .ok (none, none, none, true, true, true, true, true) ∧
    analyzeVolatility (List.replicate 42 ⟨1, 1, 1, 1, 0⟩) =
      .error .emptyVectorProduct :=
  ⟨(pipeline_partial_snapshot _).1 (by simp),
   (pipeline_partial_snapshot _).2.1 (by simp) (by simp),
   (pipeline_partial_snapshot _).2.2 (by simp)⟩

/-- Counterexample to C3 as stated: a 30-bar flat series is accepted
(≥ 30 bars) and the pipeline returns a SUCCESSFUL result whose HAR daily
forecast field is absent while realized volatility is present — a
partially-filled snapshot, not an explicit failure. -/
theorem pipeline_partial_counterexample :
    (analyzeVolatility (List.replicate 30 ⟨2, 2, 2, 2, 0⟩)).map (fun a =>
      (a.volatility_indicators.har_forecast_daily,
       a.volatility_indicators.realized_volatility.isSome)) =
      .ok (none, true) := by
  have h := analyze_har_fields_none (List.replicate 30 ⟨2, 2, 2, 2, 0⟩)
    (by simp) (by simp)
  cases hA : analyzeVolatility (List.replicate 30 ⟨2, 2, 2, 2, 0⟩) with
  | error e =>
    rw [hA] at h
    simp [Except.map] at h
  | ok a =>
    rw [hA] at h
    simp only [Except.map, Except.ok.injEq, Prod.mk.injEq] at h ⊢
    exact ⟨h.1, h.2.2.2.1⟩

end SPVT
